import Mathlib

/-!
Verification of the rep/set/rest/countdown state machine of the AI Fitness
Trainer client (`src/App.tsx`).  The React component's `useState` variables
are embedded as one record `AppState`; each event handler of the source
(pose-sample classification, rest-timer tick, start/stop button, reset,
exercise change, countdown completion) becomes a state-transition function.
Numbers held in counters are naturals, calorie values are rationals, and the
geometric angle computation is carried out over the reals.  The classifier
step is polymorphic in the ordered field used for the measured angle so the
same definition serves the real-valued frame pipeline and decidable runs on
rational angle streams.  Display strings (`message`, `formFeedback`) are
carried along; narration (`speak`) and canvas drawing are external effects
with no bearing on the state and are not modelled.
-/

namespace AITrainer

/-- Exercise selector, `"squat" | "pushup"` in the source. -/
inductive Exercise where
  | squat
  | pushup
deriving DecidableEq, Repr

/-- MoveNet keypoint names used by the detection handlers; `other` stands
for the remaining keypoints of the model, which the handlers never select. -/
inductive JointName where
  | left_hip
  | left_knee
  | left_ankle
  | right_hip
  | right_knee
  | right_ankle
  | left_shoulder
  | left_elbow
  | left_wrist
  | right_shoulder
  | right_elbow
  | right_wrist
  | other
deriving DecidableEq, BEq, Repr

/-- A detected keypoint: name, 2D position and confidence score. -/
structure Keypoint where
  name : JointName
  x : ℝ
  y : ℝ
  score : ℝ

/-- A plain 2D point, the argument type of the angle utility. -/
structure Point where
  x : ℝ
  y : ℝ

/-- The 2D position of a keypoint. -/
def Keypoint.point (k : Keypoint) : Point := ⟨k.x, k.y⟩

/-- `REPS_PER_SET = 10` in the source. -/
def REPS_PER_SET : ℕ := 10

/-- `REST_TIME = 30` seconds in the source. -/
def REST_TIME : ℕ := 30

/-- The component state: one field per `useState` variable that the session
logic reads or writes, plus `countdownActive` / `restActive` mirroring
whether `countdownIntervalRef` / `restIntervalRef` currently hold a live
interval. -/
structure AppState where
  repCount : ℕ
  setCount : ℕ
  currentSetReps : ℕ
  calories : ℚ
  isDown : Bool
  isPushupDown : Bool
  running : Bool
  exercise : Exercise
  message : String
  formFeedback : String
  cameraReady : Bool
  isResting : Bool
  restTimer : ℕ
  countdown : Option ℕ
  countdownActive : Bool
  restActive : Bool
deriving DecidableEq, Repr

/-- The initial values of the `useState` hooks. -/
def initState : AppState where
  repCount := 0
  setCount := 0
  currentSetReps := 0
  calories := 0
  isDown := false
  isPushupDown := false
  running := false
  exercise := Exercise.squat
  message := "Click Start to begin your workout"
  formFeedback := ""
  cameraReady := false
  isResting := false
  restTimer := 0
  countdown := none
  countdownActive := false
  restActive := false

open Classical in
/-- `angleBetweenThreePoints(p1, p2, p3)`: interior angle at `p2` in degrees,
via the dot product over the vector magnitudes, with the cosine clamped into
`[-1, 1]` before `acos`; returns `0` when either side vector has zero
magnitude. -/
noncomputable def angleBetweenThreePoints (p1 p2 p3 : Point) : ℝ :=
  let v1x := p1.x - p2.x
  let v1y := p1.y - p2.y
  let v2x := p3.x - p2.x
  let v2y := p3.y - p2.y
  let dot := v1x * v2x + v1y * v2y
  let mag1 := Real.sqrt (v1x ^ 2 + v1y ^ 2)
  let mag2 := Real.sqrt (v2x ^ 2 + v2y ^ 2)
  if mag1 = 0 ∨ mag2 = 0 then 0
  else Real.arccos (min 1 (max (-1) (dot / (mag1 * mag2)))) * 180 / Real.pi

/-- `parseFloat(x.toFixed(2))`: rounding to two decimal places. -/
def roundTo2 (q : ℚ) : ℚ := ((round (q * 100) : ℤ) : ℚ) / 100

/-- `calculateCalories(exercise, reps)`: `reps × 0.32` kcal for squats,
`reps × 0.29` kcal for push-ups, rounded to two decimals. -/
def calculateCalories (exercise : Exercise) (reps : ℕ) : ℚ :=
  let caloriesPerRep : ℚ := if exercise = Exercise.squat then 0.32 else 0.29
  roundTo2 ((reps : ℚ) * caloriesPerRep)

/-- The real-time squat form feedback bands, a pure function of the knee
angle (display only). -/
def squatFormFeedback {α : Type} [LinearOrderedField α] (kneeAngle : α) : String :=
  if kneeAngle > 160 then "Standing position - Good posture!"
  else if kneeAngle > 120 then "Going down - Keep your back straight!"
  else if kneeAngle > 90 then "Almost there - Go a bit lower!"
  else if kneeAngle > 70 then "Perfect depth! Now push up!"
  else "Too low - Don't go past 90 degrees!"

/-- The real-time push-up form feedback bands, a pure function of the elbow
angle (display only). -/
def pushupFormFeedback {α : Type} [LinearOrderedField α] (elbowAngle : α) : String :=
  if elbowAngle > 160 then "Starting position - Keep your body straight!"
  else if elbowAngle > 120 then "Going down - Control the movement!"
  else if elbowAngle > 90 then "Good depth - Now push up!"
  else if elbowAngle > 70 then "Perfect form! Push back up!"
  else "Too low - Don't touch the ground!"

/-- The squat classifier body of `handleSquatDetection` after a knee angle
has been selected: feedback bands, the `< 90` UP→DOWN transition, and the
`> 160` DOWN→UP transition which — unless the session is resting — credits a
rep, recomputes calories from the total rep count, and on the 10th rep of a
set increments the set counter, resets the set-rep counter and starts the
30-second rest period (`startRestPeriod`).  The phase flag is cleared even
while resting.  Reads of state inside the handler see the pre-frame values
(React closure semantics). -/
def squatStep {α : Type} [LinearOrderedField α] (st0 : AppState) (kneeAngle : α) :
    AppState :=
  let st := { st0 with formFeedback := squatFormFeedback kneeAngle }
  let stDown := if kneeAngle < 90 ∧ st0.isDown = false then { st with isDown := true } else st
  if kneeAngle > 160 ∧ st0.isDown = true then
    if st0.isResting = false then
      let totalReps := st0.repCount + 1
      let newSetReps := st0.currentSetReps + 1
      let newCalories := calculateCalories Exercise.squat totalReps
      if newSetReps ≥ REPS_PER_SET then
        { stDown with
            repCount := totalReps
            calories := newCalories
            setCount := st0.setCount + 1
            currentSetReps := 0
            isDown := false
            isResting := true
            restTimer := REST_TIME
            restActive := true
            message := "Set " ++ toString st0.setCount ++ " complete! Rest for " ++
              toString REST_TIME ++ " seconds" }
      else
        { stDown with
            repCount := totalReps
            calories := newCalories
            currentSetReps := newSetReps
            isDown := false
            message := "Rep " ++ toString newSetReps ++ "/" ++ toString REPS_PER_SET ++
              " - Great form!" }
    else
      { stDown with isDown := false }
  else
    stDown

/-- The push-up classifier body of `handlePushupDetection` after an elbow
angle has been selected; identical structure to the squat classifier but on
the `isPushupDown` flag and the push-up calorie constant. -/
def pushupStep {α : Type} [LinearOrderedField α] (st0 : AppState) (elbowAngle : α) :
    AppState :=
  let st := { st0 with formFeedback := pushupFormFeedback elbowAngle }
  let stDown :=
    if elbowAngle < 90 ∧ st0.isPushupDown = false then { st with isPushupDown := true } else st
  if elbowAngle > 160 ∧ st0.isPushupDown = true then
    if st0.isResting = false then
      let totalReps := st0.repCount + 1
      let newSetReps := st0.currentSetReps + 1
      let newCalories := calculateCalories Exercise.pushup totalReps
      if newSetReps ≥ REPS_PER_SET then
        { stDown with
            repCount := totalReps
            calories := newCalories
            setCount := st0.setCount + 1
            currentSetReps := 0
            isPushupDown := false
            isResting := true
            restTimer := REST_TIME
            restActive := true
            message := "Set " ++ toString st0.setCount ++ " complete! Rest for " ++
              toString REST_TIME ++ " seconds" }
      else
        { stDown with
            repCount := totalReps
            calories := newCalories
            currentSetReps := newSetReps
            isPushupDown := false
            message := "Rep " ++ toString newSetReps ++ "/" ++ toString REPS_PER_SET ++
              " - Excellent form!" }
    else
      { stDown with isPushupDown := false }
  else
    stDown

/-- `handleExercise` dispatch at the angle level: run the classifier of the
currently selected exercise on a measured angle. -/
def detectStep (st : AppState) (a : ℚ) : AppState :=
  match st.exercise with
  | Exercise.squat => squatStep st a
  | Exercise.pushup => pushupStep st a

/-- `keypoints.find(k => k.name === n)`. -/
def findKp (kps : List Keypoint) (n : JointName) : Option Keypoint :=
  kps.find? (fun k => k.name == n)

open Classical in
/-- The confidence gate of the detection handlers applied to one candidate
joint triple: all three keypoints must be present with score above `0.3`;
then the triple's angle is computed, otherwise the triple is unusable. -/
noncomputable def tripleAngle? :
    Option Keypoint → Option Keypoint → Option Keypoint → Option ℝ
  | some ka, some kb, some kc =>
    if ka.score > 0.3 ∧ kb.score > 0.3 ∧ kc.score > 0.3 then
      some (angleBetweenThreePoints ka.point kb.point kc.point)
    else none
  | _, _, _ => none

/-- `handleSquatDetection(keypoints)`: select the knee angle from the left
hip/knee/ankle triple if it passes the confidence gate, else from the right
triple, else skip the frame entirely; then run the squat classifier step. -/
noncomputable def handleSquatDetection (st : AppState) (kps : List Keypoint) : AppState :=
  match (tripleAngle? (findKp kps JointName.left_hip) (findKp kps JointName.left_knee)
      (findKp kps JointName.left_ankle)).orElse
      (fun _ => tripleAngle? (findKp kps JointName.right_hip)
        (findKp kps JointName.right_knee) (findKp kps JointName.right_ankle)) with
  | none => st
  | some kneeAngle => squatStep st kneeAngle

/-- `handlePushupDetection(keypoints)`: same selection scheme on the
shoulder/elbow/wrist triples, then the push-up classifier step. -/
noncomputable def handlePushupDetection (st : AppState) (kps : List Keypoint) : AppState :=
  match (tripleAngle? (findKp kps JointName.left_shoulder) (findKp kps JointName.left_elbow)
      (findKp kps JointName.left_wrist)).orElse
      (fun _ => tripleAngle? (findKp kps JointName.right_shoulder)
        (findKp kps JointName.right_elbow) (findKp kps JointName.right_wrist)) with
  | none => st
  | some elbowAngle => pushupStep st elbowAngle

/-- One tick of the rest interval started by `startRestPeriod`: decrement
the rest timer, and when it runs out clear the interval and leave the
resting state. -/
def restTickStep (st : AppState) : AppState :=
  if st.restTimer ≤ 1 then
    { st with
        restTimer := 0
        restActive := false
        isResting := false
        message := "Rest complete! Ready for your next set" }
  else
    { st with restTimer := st.restTimer - 1 }

/-- `clearCountdown()`: drop the countdown interval and the displayed
countdown value. -/
def clearCountdown (st : AppState) : AppState :=
  { st with countdownActive := false, countdown := none }

/-- `clearRestTimer()`: drop the rest interval, zero the rest timer and
leave the resting state. -/
def clearRestTimer (st : AppState) : AppState :=
  { st with restActive := false, restTimer := 0, isResting := false }

/-- `startCountdown()`: no-op if a countdown interval is already live,
otherwise display 3 and arm the 1-second countdown interval. -/
def startCountdown (st : AppState) : AppState :=
  if st.countdownActive = true then st
  else { st with countdownActive := true, countdown := some 3 }

/-- The name string of an exercise, used in display messages. -/
def exerciseName : Exercise → String
  | Exercise.squat => "squat"
  | Exercise.pushup => "pushup"

/-- The countdown-completion branch of the countdown tick: clear the
interval and the display, zero every rep/set/calorie/phase/rest field and
enter the running state. -/
def startWorkout (st : AppState) : AppState :=
  { st with
      countdownActive := false
      countdown := none
      repCount := 0
      setCount := 0
      currentSetReps := 0
      calories := 0
      isDown := false
      isPushupDown := false
      formFeedback := ""
      isResting := false
      restTimer := 0
      running := true
      message := "Performing " ++ exerciseName st.exercise ++ "s - get into position!" }

/-- `handleStart()`: when idle with a live countdown, cancel the countdown;
when idle without one, start the countdown; when running, stop the workout
(counters preserved).  `cameraOk` is the outcome of the external
`setupCamera()` call made when the camera is not yet ready; on failure the
handler returns without further effect. -/
def handleStart (st : AppState) (cameraOk : Bool) : AppState :=
  if st.running = false ∧ st.cameraReady = false ∧ cameraOk = false then st
  else
    let st1 :=
      if st.running = false ∧ st.cameraReady = false then { st with cameraReady := true }
      else st
    if st1.running = false then
      if st1.countdownActive = true then
        { clearCountdown st1 with message := "Countdown cancelled" }
      else
        startCountdown st1
    else
      { clearRestTimer (clearCountdown st1) with
          running := false
          message := "Workout paused - " ++ toString st1.setCount ++ " sets, " ++
            toString st1.repCount ++ " total reps" }

/-- `handleReset()`: zero all counters, phases and timers, stop the workout
and drop both intervals. -/
def handleReset (st : AppState) : AppState :=
  { st with
      repCount := 0
      setCount := 0
      currentSetReps := 0
      calories := 0
      isDown := false
      isPushupDown := false
      running := false
      formFeedback := ""
      isResting := false
      restTimer := 0
      countdownActive := false
      countdown := none
      restActive := false
      message := "Workout reset. Ready to start fresh!" }

/-- `handleExerciseChange(newExercise)`: switch the exercise and perform the
same full reset as `handleReset`. -/
def handleExerciseChange (st : AppState) (newExercise : Exercise) : AppState :=
  { st with
      exercise := newExercise
      repCount := 0
      setCount := 0
      currentSetReps := 0
      calories := 0
      isDown := false
      isPushupDown := false
      running := false
      formFeedback := ""
      isResting := false
      restTimer := 0
      countdownActive := false
      countdown := none
      restActive := false
      message := "Exercise changed to " ++ exerciseName newExercise ++
        "s. Click Start when ready!" }

/-- Fold the squat classifier over a stream of sampled knee angles. -/
def runSquat (st : AppState) (angles : List ℚ) : AppState :=
  angles.foldl (fun s a => squatStep s a) st

/-- Fold the push-up classifier over a stream of sampled elbow angles. -/
def runPushup (st : AppState) (angles : List ℚ) : AppState :=
  angles.foldl (fun s a => pushupStep s a) st

/-- Fold the active exercise's classifier over a stream of sampled angles. -/
def runDetect (st : AppState) (angles : List ℚ) : AppState :=
  angles.foldl detectStep st

/-- The events that can occur within one run of a workout (between the
workout start and the next reset, exercise change or restart): a classifier
sample with its measured angle, a rest-interval tick, and a press of the
start/stop button (which, while running, stops the workout). -/
inductive RunEvent where
  | sample (a : ℚ)
  | restTick
  | stop
deriving DecidableEq, Repr

/-- Apply one within-run event to the session state. -/
def runEventStep (st : AppState) : RunEvent → AppState
  | RunEvent.sample a => detectStep st a
  | RunEvent.restTick => restTickStep st
  | RunEvent.stop => handleStart st true

/-- Fold a sequence of within-run events over the session state. -/
def runEvents (st : AppState) (es : List RunEvent) : AppState :=
  es.foldl runEventStep st

/-- Every operation of the session state machine: workout start (countdown
completion), classifier sample, rest tick, start/stop button press, reset,
and exercise change. -/
inductive SessionOp where
  | workoutStart
  | sample (a : ℚ)
  | restTick
  | buttonPress (cameraOk : Bool)
  | reset
  | exerciseChange (e : Exercise)
deriving DecidableEq, Repr

/-- Apply one session operation to the state. -/
def applySessionOp (st : AppState) : SessionOp → AppState
  | SessionOp.workoutStart => startWorkout st
  | SessionOp.sample a => detectStep st a
  | SessionOp.restTick => restTickStep st
  | SessionOp.buttonPress ok => handleStart st ok
  | SessionOp.reset => handleReset st
  | SessionOp.exerciseChange e => handleExerciseChange st e

/-- Number of completed DOWN→UP cycles of the hysteresis automaton (down
below 90, back up above 160) along an angle stream, starting from the given
phase flag.  Each such cycle is exactly one rep-crediting opportunity. -/
def upCrossings : Bool → List ℚ → ℕ
  | _, [] => 0
  | down, a :: rest =>
    if a > 160 ∧ down = true then 1 + upCrossings false rest
    else if a < 90 ∧ down = false then upCrossings true rest
    else upCrossings down rest

/-- A possibly-found keypoint fails the confidence gate: it is absent, or
its score is at or below `0.3`. -/
def lowConf : Option Keypoint → Prop
  | some k => k.score ≤ 0.3
  | none => True

/-- A candidate joint triple is unusable: at least one of its three
keypoints fails the confidence gate. -/
def lowTriple (kps : List Keypoint) (n1 n2 n3 : JointName) : Prop :=
  lowConf (findKp kps n1) ∨ lowConf (findKp kps n2) ∨ lowConf (findKp kps n3)

/-- The counter-consistency invariant: the current set holds between 0 and 9
reps, and the total rep count decomposes into full sets plus the current
set's reps. -/
def counterInv (st : AppState) : Prop :=
  st.currentSetReps ≤ REPS_PER_SET - 1 ∧
  st.repCount = REPS_PER_SET * st.setCount + st.currentSetReps

/-- Ten consecutive valid down→up squat cycles, as a stream of sampled knee
angles: each cycle dips to 80° (below the 90° down threshold) and returns to
170° (above the 160° up threshold). -/
def tenSquatCycles : List ℚ := (List.replicate 10 ([80, 170] : List ℚ)).flatten

section CharacterizationLemmas

/-- Rep counter after one squat classifier step. -/
theorem squatStep_repCount {α : Type} [LinearOrderedField α] (st : AppState) (a : α) :
    (squatStep st a).repCount =
      if a > 160 ∧ st.isDown = true ∧ st.isResting = false then st.repCount + 1
      else st.repCount := by
  simp only [squatStep]
  split_ifs <;> simp_all

/-- Current-set rep counter after one squat classifier step. -/
theorem squatStep_currentSetReps {α : Type} [LinearOrderedField α] (st : AppState) (a : α) :
    (squatStep st a).currentSetReps =
      if a > 160 ∧ st.isDown = true ∧ st.isResting = false then
        (if st.currentSetReps + 1 ≥ REPS_PER_SET then 0 else st.currentSetReps + 1)
      else st.currentSetReps := by
  simp only [squatStep]
  split_ifs <;> simp_all

/-- Set counter after one squat classifier step. -/
theorem squatStep_setCount {α : Type} [LinearOrderedField α] (st : AppState) (a : α) :
    (squatStep st a).setCount =
      if a > 160 ∧ st.isDown = true ∧ st.isResting = false ∧
          st.currentSetReps + 1 ≥ REPS_PER_SET then st.setCount + 1
      else st.setCount := by
  simp only [squatStep]
  split_ifs <;> simp_all

/-- Calories after one squat classifier step. -/
theorem squatStep_calories {α : Type} [LinearOrderedField α] (st : AppState) (a : α) :
    (squatStep st a).calories =
      if a > 160 ∧ st.isDown = true ∧ st.isResting = false then
        calculateCalories Exercise.squat (st.repCount + 1)
      else st.calories := by
  simp only [squatStep]
  split_ifs <;> simp_all

/-- Phase flag after one squat classifier step. -/
theorem squatStep_isDown {α : Type} [LinearOrderedField α] (st : AppState) (a : α) :
    (squatStep st a).isDown =
      if a > 160 ∧ st.isDown = true then false
      else if a < 90 ∧ st.isDown = false then true
      else st.isDown := by
  simp only [squatStep]
  split_ifs <;> simp_all

/-- Resting flag after one squat classifier step. -/
theorem squatStep_isResting {α : Type} [LinearOrderedField α] (st : AppState) (a : α) :
    (squatStep st a).isResting =
      if a > 160 ∧ st.isDown = true ∧ st.isResting = false ∧
          st.currentSetReps + 1 ≥ REPS_PER_SET then true
      else st.isResting := by
  simp only [squatStep]
  split_ifs <;> simp_all

/-- Rest timer after one squat classifier step. -/
theorem squatStep_restTimer {α : Type} [LinearOrderedField α] (st : AppState) (a : α) :
    (squatStep st a).restTimer =
      if a > 160 ∧ st.isDown = true ∧ st.isResting = false ∧
          st.currentSetReps + 1 ≥ REPS_PER_SET then REST_TIME
      else st.restTimer := by
  simp only [squatStep]
  split_ifs <;> simp_all

/-- Fields the squat classifier step never writes. -/
theorem squatStep_preserved {α : Type} [LinearOrderedField α] (st : AppState) (a : α) :
    (squatStep st a).exercise = st.exercise ∧
    (squatStep st a).running = st.running ∧
    (squatStep st a).isPushupDown = st.isPushupDown ∧
    (squatStep st a).countdown = st.countdown ∧
    (squatStep st a).countdownActive = st.countdownActive ∧
    (squatStep st a).cameraReady = st.cameraReady := by
  simp only [squatStep]
  split_ifs <;> simp_all

/-- Rep counter after one push-up classifier step. -/
theorem pushupStep_repCount {α : Type} [LinearOrderedField α] (st : AppState) (a : α) :
    (pushupStep st a).repCount =
      if a > 160 ∧ st.isPushupDown = true ∧ st.isResting = false then st.repCount + 1
      else st.repCount := by
  simp only [pushupStep]
  split_ifs <;> simp_all

/-- Current-set rep counter after one push-up classifier step. -/
theorem pushupStep_currentSetReps {α : Type} [LinearOrderedField α] (st : AppState) (a : α) :
    (pushupStep st a).currentSetReps =
      if a > 160 ∧ st.isPushupDown = true ∧ st.isResting = false then
        (if st.currentSetReps + 1 ≥ REPS_PER_SET then 0 else st.currentSetReps + 1)
      else st.currentSetReps := by
  simp only [pushupStep]
  split_ifs <;> simp_all

/-- Set counter after one push-up classifier step. -/
theorem pushupStep_setCount {α : Type} [LinearOrderedField α] (st : AppState) (a : α) :
    (pushupStep st a).setCount =
      if a > 160 ∧ st.isPushupDown = true ∧ st.isResting = false ∧
          st.currentSetReps + 1 ≥ REPS_PER_SET then st.setCount + 1
      else st.setCount := by
  simp only [pushupStep]
  split_ifs <;> simp_all

/-- Calories after one push-up classifier step. -/
theorem pushupStep_calories {α : Type} [LinearOrderedField α] (st : AppState) (a : α) :
    (pushupStep st a).calories =
      if a > 160 ∧ st.isPushupDown = true ∧ st.isResting = false then
        calculateCalories Exercise.pushup (st.repCount + 1)
      else st.calories := by
  simp only [pushupStep]
  split_ifs <;> simp_all

/-- Phase flag after one push-up classifier step. -/
theorem pushupStep_isPushupDown {α : Type} [LinearOrderedField α] (st : AppState) (a : α) :
    (pushupStep st a).isPushupDown =
      if a > 160 ∧ st.isPushupDown = true then false
      else if a < 90 ∧ st.isPushupDown = false then true
      else st.isPushupDown := by
  simp only [pushupStep]
  split_ifs <;> simp_all

/-- Resting flag after one push-up classifier step. -/
theorem pushupStep_isResting {α : Type} [LinearOrderedField α] (st : AppState) (a : α) :
    (pushupStep st a).isResting =
      if a > 160 ∧ st.isPushupDown = true ∧ st.isResting = false ∧
          st.currentSetReps + 1 ≥ REPS_PER_SET then true
      else st.isResting := by
  simp only [pushupStep]
  split_ifs <;> simp_all

/-- Rest timer after one push-up classifier step. -/
theorem pushupStep_restTimer {α : Type} [LinearOrderedField α] (st : AppState) (a : α) :
    (pushupStep st a).restTimer =
      if a > 160 ∧ st.isPushupDown = true ∧ st.isResting = false ∧
          st.currentSetReps + 1 ≥ REPS_PER_SET then REST_TIME
      else st.restTimer := by
  simp only [pushupStep]
  split_ifs <;> simp_all

/-- Fields the push-up classifier step never writes. -/
theorem pushupStep_preserved {α : Type} [LinearOrderedField α] (st : AppState) (a : α) :
    (pushupStep st a).exercise = st.exercise ∧
    (pushupStep st a).running = st.running ∧
    (pushupStep st a).isDown = st.isDown ∧
    (pushupStep st a).countdown = st.countdown ∧
    (pushupStep st a).countdownActive = st.countdownActive ∧
    (pushupStep st a).cameraReady = st.cameraReady := by
  simp only [pushupStep]
  split_ifs <;> simp_all

/-- The rest tick never touches the rep/set/calorie counters nor the
exercise selection. -/
theorem restTickStep_preserved (st : AppState) :
    (restTickStep st).repCount = st.repCount ∧
    (restTickStep st).setCount = st.setCount ∧
    (restTickStep st).currentSetReps = st.currentSetReps ∧
    (restTickStep st).calories = st.calories ∧
    (restTickStep st).exercise = st.exercise := by
  simp only [restTickStep]
  split_ifs <;> simp_all

/-- The start/stop button never touches the rep/set/calorie counters nor
the exercise selection. -/
theorem handleStart_preserved (st : AppState) (ok : Bool) :
    (handleStart st ok).repCount = st.repCount ∧
    (handleStart st ok).setCount = st.setCount ∧
    (handleStart st ok).currentSetReps = st.currentSetReps ∧
    (handleStart st ok).calories = st.calories ∧
    (handleStart st ok).exercise = st.exercise := by
  simp only [handleStart, startCountdown, clearCountdown, clearRestTimer]
  split_ifs <;> simp_all

end CharacterizationLemmas


section RunLemmas

/-- Unfolding one squat sample from a run. -/
theorem runSquat_cons (st : AppState) (a : ℚ) (rest : List ℚ) :
    runSquat st (a :: rest) = runSquat (squatStep st a) rest := rfl

/-- Unfolding one push-up sample from a run. -/
theorem runPushup_cons (st : AppState) (a : ℚ) (rest : List ℚ) :
    runPushup st (a :: rest) = runPushup (pushupStep st a) rest := rfl

/-- Along a non-resting squat run that never fills the current set, the rep
counter advances by exactly the number of completed DOWN→UP hysteresis
cycles, the set-rep counter advances in lockstep, and the session stays out
of the resting state. -/
theorem runSquat_crossings (angles : List ℚ) (st : AppState)
    (hrest : st.isResting = false)
    (hlt : st.currentSetReps + upCrossings st.isDown angles < REPS_PER_SET) :
    (runSquat st angles).repCount = st.repCount + upCrossings st.isDown angles ∧
    (runSquat st angles).currentSetReps =
      st.currentSetReps + upCrossings st.isDown angles ∧
    (runSquat st angles).isResting = false := by
  induction angles generalizing st with
  | nil => simp [runSquat, upCrossings, hrest]
  | cons a rest ih =>
    by_cases hc : a > (160 : ℚ) ∧ st.isDown = true
    · have hcr : upCrossings st.isDown (a :: rest) = 1 + upCrossings false rest := by
        simp only [upCrossings]
        rw [if_pos hc]
      rw [hcr] at hlt
      have hrep : (squatStep st a).repCount = st.repCount + 1 := by
        rw [squatStep_repCount, if_pos ⟨hc.1, hc.2, hrest⟩]
      have hcsr : (squatStep st a).currentSetReps = st.currentSetReps + 1 := by
        rw [squatStep_currentSetReps, if_pos ⟨hc.1, hc.2, hrest⟩, if_neg (by omega)]
      have hrest' : (squatStep st a).isResting = false := by
        rw [squatStep_isResting, if_neg]
        · exact hrest
        · rintro ⟨-, -, -, h⟩; omega
      have hdown' : (squatStep st a).isDown = false := by
        rw [squatStep_isDown, if_pos hc]
      obtain ⟨h1, h2, h3⟩ := ih (squatStep st a) hrest'
        (by rw [hcsr, hdown']; omega)
      rw [runSquat_cons, hcr]
      rw [hrep, hdown'] at h1
      rw [hcsr, hdown'] at h2
      exact ⟨by rw [h1]; omega, by rw [h2]; omega, h3⟩
    · by_cases hd : a < (90 : ℚ) ∧ st.isDown = false
      · have hcr : upCrossings st.isDown (a :: rest) = upCrossings true rest := by
          simp only [upCrossings]
          rw [if_neg hc, if_pos hd]
        rw [hcr] at hlt
        have hrep : (squatStep st a).repCount = st.repCount := by
          rw [squatStep_repCount, if_neg]
          rintro ⟨h1, h2, -⟩; exact hc ⟨h1, h2⟩
        have hcsr : (squatStep st a).currentSetReps = st.currentSetReps := by
          rw [squatStep_currentSetReps, if_neg]
          rintro ⟨h1, h2, -⟩; exact hc ⟨h1, h2⟩
        have hrest' : (squatStep st a).isResting = false := by
          rw [squatStep_isResting, if_neg]
          · exact hrest
          · rintro ⟨h1, h2, -, -⟩; exact hc ⟨h1, h2⟩
        have hdown' : (squatStep st a).isDown = true := by
          rw [squatStep_isDown, if_neg hc, if_pos hd]
        obtain ⟨h1, h2, h3⟩ := ih (squatStep st a) hrest'
          (by rw [hcsr, hdown']; omega)
        rw [runSquat_cons, hcr]
        rw [hrep, hdown'] at h1
        rw [hcsr, hdown'] at h2
        exact ⟨h1, h2, h3⟩
      · have hcr : upCrossings st.isDown (a :: rest) = upCrossings st.isDown rest := by
          simp only [upCrossings]
          rw [if_neg hc, if_neg hd]
        rw [hcr] at hlt
        have hrep : (squatStep st a).repCount = st.repCount := by
          rw [squatStep_repCount, if_neg]
          rintro ⟨h1, h2, -⟩; exact hc ⟨h1, h2⟩
        have hcsr : (squatStep st a).currentSetReps = st.currentSetReps := by
          rw [squatStep_currentSetReps, if_neg]
          rintro ⟨h1, h2, -⟩; exact hc ⟨h1, h2⟩
        have hrest' : (squatStep st a).isResting = false := by
          rw [squatStep_isResting, if_neg]
          · exact hrest
          · rintro ⟨h1, h2, -, -⟩; exact hc ⟨h1, h2⟩
        have hdown' : (squatStep st a).isDown = st.isDown := by
          rw [squatStep_isDown, if_neg hc, if_neg hd]
        obtain ⟨h1, h2, h3⟩ := ih (squatStep st a) hrest'
          (by rw [hcsr, hdown']; omega)
        rw [runSquat_cons, hcr]
        rw [hrep, hdown'] at h1
        rw [hcsr, hdown'] at h2
        exact ⟨h1, h2, h3⟩


/-- Along a non-resting push-up run that never fills the current set, the rep
counter advances by exactly the number of completed DOWN→UP hysteresis
cycles, the set-rep counter advances in lockstep, and the session stays out
of the resting state. -/
theorem runPushup_crossings (angles : List ℚ) (st : AppState)
    (hrest : st.isResting = false)
    (hlt : st.currentSetReps + upCrossings st.isPushupDown angles < REPS_PER_SET) :
    (runPushup st angles).repCount = st.repCount + upCrossings st.isPushupDown angles ∧
    (runPushup st angles).currentSetReps =
      st.currentSetReps + upCrossings st.isPushupDown angles ∧
    (runPushup st angles).isResting = false := by
  induction angles generalizing st with
  | nil => simp [runPushup, upCrossings, hrest]
  | cons a rest ih =>
    by_cases hc : a > (160 : ℚ) ∧ st.isPushupDown = true
    · have hcr : upCrossings st.isPushupDown (a :: rest) = 1 + upCrossings false rest := by
        simp only [upCrossings]
        rw [if_pos hc]
      rw [hcr] at hlt
      have hrep : (pushupStep st a).repCount = st.repCount + 1 := by
        rw [pushupStep_repCount, if_pos ⟨hc.1, hc.2, hrest⟩]
      have hcsr : (pushupStep st a).currentSetReps = st.currentSetReps + 1 := by
        rw [pushupStep_currentSetReps, if_pos ⟨hc.1, hc.2, hrest⟩, if_neg (by omega)]
      have hrest' : (pushupStep st a).isResting = false := by
        rw [pushupStep_isResting, if_neg]
        · exact hrest
        · rintro ⟨-, -, -, h⟩; omega
      have hdown' : (pushupStep st a).isPushupDown = false := by
        rw [pushupStep_isPushupDown, if_pos hc]
      obtain ⟨h1, h2, h3⟩ := ih (pushupStep st a) hrest'
        (by rw [hcsr, hdown']; omega)
      rw [runPushup_cons, hcr]
      rw [hrep, hdown'] at h1
      rw [hcsr, hdown'] at h2
      exact ⟨by rw [h1]; omega, by rw [h2]; omega, h3⟩
    · by_cases hd : a < (90 : ℚ) ∧ st.isPushupDown = false
      · have hcr : upCrossings st.isPushupDown (a :: rest) = upCrossings true rest := by
          simp only [upCrossings]
          rw [if_neg hc, if_pos hd]
        rw [hcr] at hlt
        have hrep : (pushupStep st a).repCount = st.repCount := by
          rw [pushupStep_repCount, if_neg]
          rintro ⟨h1, h2, -⟩; exact hc ⟨h1, h2⟩
        have hcsr : (pushupStep st a).currentSetReps = st.currentSetReps := by
          rw [pushupStep_currentSetReps, if_neg]
          rintro ⟨h1, h2, -⟩; exact hc ⟨h1, h2⟩
        have hrest' : (pushupStep st a).isResting = false := by
          rw [pushupStep_isResting, if_neg]
          · exact hrest
          · rintro ⟨h1, h2, -, -⟩; exact hc ⟨h1, h2⟩
        have hdown' : (pushupStep st a).isPushupDown = true := by
          rw [pushupStep_isPushupDown, if_neg hc, if_pos hd]
        obtain ⟨h1, h2, h3⟩ := ih (pushupStep st a) hrest'
          (by rw [hcsr, hdown']; omega)
        rw [runPushup_cons, hcr]
        rw [hrep, hdown'] at h1
        rw [hcsr, hdown'] at h2
        exact ⟨h1, h2, h3⟩
      · have hcr : upCrossings st.isPushupDown (a :: rest) = upCrossings st.isPushupDown rest := by
          simp only [upCrossings]
          rw [if_neg hc, if_neg hd]
        rw [hcr] at hlt
        have hrep : (pushupStep st a).repCount = st.repCount := by
          rw [pushupStep_repCount, if_neg]
          rintro ⟨h1, h2, -⟩; exact hc ⟨h1, h2⟩
        have hcsr : (pushupStep st a).currentSetReps = st.currentSetReps := by
          rw [pushupStep_currentSetReps, if_neg]
          rintro ⟨h1, h2, -⟩; exact hc ⟨h1, h2⟩
        have hrest' : (pushupStep st a).isResting = false := by
          rw [pushupStep_isResting, if_neg]
          · exact hrest
          · rintro ⟨h1, h2, -, -⟩; exact hc ⟨h1, h2⟩
        have hdown' : (pushupStep st a).isPushupDown = st.isPushupDown := by
          rw [pushupStep_isPushupDown, if_neg hc, if_neg hd]
        obtain ⟨h1, h2, h3⟩ := ih (pushupStep st a) hrest'
          (by rw [hcsr, hdown']; omega)
        rw [runPushup_cons, hcr]
        rw [hrep, hdown'] at h1
        rw [hcsr, hdown'] at h2
        exact ⟨h1, h2, h3⟩


/-- If no sampled angle ever rises above the up threshold, a squat run never
credits a rep. -/
theorem runSquat_no_up (angles : List ℚ) (st : AppState)
    (h : ∀ x ∈ angles, x ≤ 160) :
    (runSquat st angles).repCount = st.repCount := by
  induction angles generalizing st with
  | nil => rfl
  | cons a rest ih =>
    have hrep : (squatStep st a).repCount = st.repCount := by
      rw [squatStep_repCount, if_neg]
      rintro ⟨h1, -, -⟩
      exact absurd h1 (not_lt.mpr (h a (List.mem_cons_self a rest)))
    rw [runSquat_cons, ih (squatStep st a) (fun x hx => h x (List.mem_cons_of_mem a hx)), hrep]

/-- If the squat phase starts UP and no sampled angle ever drops below the
down threshold, a squat run never credits a rep and the phase stays UP. -/
theorem runSquat_stay_up (angles : List ℚ) (st : AppState)
    (hdown : st.isDown = false) (h : ∀ x ∈ angles, 90 ≤ x) :
    (runSquat st angles).repCount = st.repCount ∧
    (runSquat st angles).isDown = false := by
  induction angles generalizing st with
  | nil => exact ⟨rfl, hdown⟩
  | cons a rest ih =>
    have hrep : (squatStep st a).repCount = st.repCount := by
      rw [squatStep_repCount, if_neg]
      rintro ⟨-, h2, -⟩
      rw [hdown] at h2
      exact Bool.false_ne_true h2
    have hd : (squatStep st a).isDown = false := by
      rw [squatStep_isDown, if_neg, if_neg]
      · exact hdown
      · rintro ⟨h1, -⟩
        exact absurd h1 (not_lt.mpr (h a (List.mem_cons_self a rest)))
      · rintro ⟨-, h2⟩
        rw [hdown] at h2
        exact Bool.false_ne_true h2
    obtain ⟨h1, h2⟩ := ih (squatStep st a) hd (fun x hx => h x (List.mem_cons_of_mem a hx))
    rw [runSquat_cons]
    exact ⟨by rw [h1, hrep], h2⟩

/-- If no sampled angle ever rises above the up threshold, a push-up run
never credits a rep. -/
theorem runPushup_no_up (angles : List ℚ) (st : AppState)
    (h : ∀ x ∈ angles, x ≤ 160) :
    (runPushup st angles).repCount = st.repCount := by
  induction angles generalizing st with
  | nil => rfl
  | cons a rest ih =>
    have hrep : (pushupStep st a).repCount = st.repCount := by
      rw [pushupStep_repCount, if_neg]
      rintro ⟨h1, -, -⟩
      exact absurd h1 (not_lt.mpr (h a (List.mem_cons_self a rest)))
    rw [runPushup_cons, ih (pushupStep st a) (fun x hx => h x (List.mem_cons_of_mem a hx)), hrep]

/-- If the push-up phase starts UP and no sampled angle ever drops below the
down threshold, a push-up run never credits a rep and the phase stays UP. -/
theorem runPushup_stay_up (angles : List ℚ) (st : AppState)
    (hdown : st.isPushupDown = false) (h : ∀ x ∈ angles, 90 ≤ x) :
    (runPushup st angles).repCount = st.repCount ∧
    (runPushup st angles).isPushupDown = false := by
  induction angles generalizing st with
  | nil => exact ⟨rfl, hdown⟩
  | cons a rest ih =>
    have hrep : (pushupStep st a).repCount = st.repCount := by
      rw [pushupStep_repCount, if_neg]
      rintro ⟨-, h2, -⟩
      rw [hdown] at h2
      exact Bool.false_ne_true h2
    have hd : (pushupStep st a).isPushupDown = false := by
      rw [pushupStep_isPushupDown, if_neg, if_neg]
      · exact hdown
      · rintro ⟨h1, -⟩
        exact absurd h1 (not_lt.mpr (h a (List.mem_cons_self a rest)))
      · rintro ⟨-, h2⟩
        rw [hdown] at h2
        exact Bool.false_ne_true h2
    obtain ⟨h1, h2⟩ := ih (pushupStep st a) hd (fun x hx => h x (List.mem_cons_of_mem a hx))
    rw [runPushup_cons]
    exact ⟨by rw [h1, hrep], h2⟩

/-- Along any squat run, the calories field remains the calorie function of
the total rep count. -/
theorem runSquat_calInv (angles : List ℚ) (st : AppState)
    (h : st.calories = calculateCalories Exercise.squat st.repCount) :
    (runSquat st angles).calories =
      calculateCalories Exercise.squat (runSquat st angles).repCount := by
  induction angles generalizing st with
  | nil => exact h
  | cons a rest ih =>
    rw [runSquat_cons]
    apply ih
    rw [squatStep_calories, squatStep_repCount]
    split_ifs with hc
    · rfl
    · exact h

/-- Along any push-up run, the calories field remains the calorie function
of the total rep count. -/
theorem runPushup_calInv (angles : List ℚ) (st : AppState)
    (h : st.calories = calculateCalories Exercise.pushup st.repCount) :
    (runPushup st angles).calories =
      calculateCalories Exercise.pushup (runPushup st angles).repCount := by
  induction angles generalizing st with
  | nil => exact h
  | cons a rest ih =>
    rw [runPushup_cons]
    apply ih
    rw [pushupStep_calories, pushupStep_repCount]
    split_ifs with hc
    · rfl
    · exact h

end RunLemmas

/-- C8: for every three input points the angle utility returns a value in
`[0, 180]` degrees; it returns exactly `0` when either side vector
(`P1 − P2` or `P3 − P2`) is zero; and the cosine argument handed to the
inverse cosine is clamped into `[-1, 1]`. -/
theorem angleBetween_range_and_degenerate (p1 p2 p3 : Point) :
    (0 ≤ angleBetweenThreePoints p1 p2 p3 ∧ angleBetweenThreePoints p1 p2 p3 ≤ 180)
    ∧ ((p1.x = p2.x ∧ p1.y = p2.y) ∨ (p3.x = p2.x ∧ p3.y = p2.y) →
        angleBetweenThreePoints p1 p2 p3 = 0)
    ∧ (-1 ≤ min 1 (max (-1)
          (((p1.x - p2.x) * (p3.x - p2.x) + (p1.y - p2.y) * (p3.y - p2.y)) /
            (Real.sqrt ((p1.x - p2.x) ^ 2 + (p1.y - p2.y) ^ 2) *
              Real.sqrt ((p3.x - p2.x) ^ 2 + (p3.y - p2.y) ^ 2))))
        ∧ min 1 (max (-1)
          (((p1.x - p2.x) * (p3.x - p2.x) + (p1.y - p2.y) * (p3.y - p2.y)) /
            (Real.sqrt ((p1.x - p2.x) ^ 2 + (p1.y - p2.y) ^ 2) *
              Real.sqrt ((p3.x - p2.x) ^ 2 + (p3.y - p2.y) ^ 2)))) ≤ 1) := by
  refine ⟨?_, ?_, ?_, min_le_left _ _⟩
  · simp only [angleBetweenThreePoints]
    split_ifs with h
    · norm_num
    · constructor
      · have h1 : 0 ≤ Real.arccos (min 1 (max (-1)
            (((p1.x - p2.x) * (p3.x - p2.x) + (p1.y - p2.y) * (p3.y - p2.y)) /
              (Real.sqrt ((p1.x - p2.x) ^ 2 + (p1.y - p2.y) ^ 2) *
                Real.sqrt ((p3.x - p2.x) ^ 2 + (p3.y - p2.y) ^ 2))))) :=
          Real.arccos_nonneg _
        positivity
      · calc Real.arccos (min 1 (max (-1)
            (((p1.x - p2.x) * (p3.x - p2.x) + (p1.y - p2.y) * (p3.y - p2.y)) /
              (Real.sqrt ((p1.x - p2.x) ^ 2 + (p1.y - p2.y) ^ 2) *
                Real.sqrt ((p3.x - p2.x) ^ 2 + (p3.y - p2.y) ^ 2))))) * 180 / Real.pi
            ≤ Real.pi * 180 / Real.pi := by
              gcongr
              exact Real.arccos_le_pi _
          _ = 180 := by
              field_simp
  · intro h
    simp only [angleBetweenThreePoints]
    rcases h with h | h
    · have hm : Real.sqrt ((p1.x - p2.x) ^ 2 + (p1.y - p2.y) ^ 2) = 0 := by
        rw [h.1, h.2]; simp
      rw [if_pos (Or.inl hm)]
    · have hm : Real.sqrt ((p3.x - p2.x) ^ 2 + (p3.y - p2.y) ^ 2) = 0 := by
        rw [h.1, h.2]; simp
      rw [if_pos (Or.inr hm)]
  · exact le_min (by norm_num) (le_max_left _ _)

section FrameLemmas

/-- A triple with any gate-failing keypoint yields no angle. -/
theorem tripleAngle?_eq_none_of_low {a b c : Option Keypoint}
    (h : lowConf a ∨ lowConf b ∨ lowConf c) : tripleAngle? a b c = none := by
  rcases a with _ | ka
  · rfl
  · rcases b with _ | kb
    · rfl
    · rcases c with _ | kc
      · rfl
      · simp only [tripleAngle?, lowConf] at h ⊢
        rw [if_neg]
        rintro ⟨h1, h2, h3⟩
        rcases h with h | h | h <;> linarith

/-- A triple whose three keypoints all pass the gate yields its angle. -/
theorem tripleAngle?_of_pass (ka kb kc : Keypoint) (h1 : ka.score > 0.3)
    (h2 : kb.score > 0.3) (h3 : kc.score > 0.3) :
    tripleAngle? (some ka) (some kb) (some kc) =
      some (angleBetweenThreePoints ka.point kb.point kc.point) := by
  simp only [tripleAngle?]
  rw [if_pos ⟨h1, h2, h3⟩]

end FrameLemmas

/-- C5: on a frame where both candidate joint triples fail the confidence
gate (for the active exercise's joints), the detection handler leaves the
state completely unchanged — no phase transition, no rep, no counter or
calorie change, regardless of the keypoint coordinates. -/
theorem low_confidence_skips_frame (st : AppState) (kps : List Keypoint) :
    (lowTriple kps JointName.left_hip JointName.left_knee JointName.left_ankle →
     lowTriple kps JointName.right_hip JointName.right_knee JointName.right_ankle →
     handleSquatDetection st kps = st) ∧
    (lowTriple kps JointName.left_shoulder JointName.left_elbow JointName.left_wrist →
     lowTriple kps JointName.right_shoulder JointName.right_elbow JointName.right_wrist →
     handlePushupDetection st kps = st) := by
  constructor
  · intro hL hR
    simp only [lowTriple] at hL hR
    simp only [handleSquatDetection, tripleAngle?_eq_none_of_low hL,
      tripleAngle?_eq_none_of_low hR]
    rfl
  · intro hL hR
    simp only [lowTriple] at hL hR
    simp only [handlePushupDetection, tripleAngle?_eq_none_of_low hL,
      tripleAngle?_eq_none_of_low hR]
    rfl

/-- Witness for C5 at a concrete frame: all six squat/push-up joints present
but with low confidence (score 0.2 ≤ 0.3 gate), so the frame is skipped. -/
theorem low_confidence_skips_frame_witness :
    handleSquatDetection initState
      [⟨JointName.left_hip, 10, 20, 0.2⟩, ⟨JointName.left_knee, 11, 40, 0.2⟩,
       ⟨JointName.left_ankle, 12, 60, 0.2⟩, ⟨JointName.right_hip, 20, 20, 0.2⟩,
       ⟨JointName.right_knee, 21, 40, 0.2⟩, ⟨JointName.right_ankle, 22, 60, 0.2⟩] =
      initState := by
  apply (low_confidence_skips_frame initState _).1
  · refine Or.inl ?_
    show lowConf (some (⟨JointName.left_hip, 10, 20, 0.2⟩ : Keypoint))
    norm_num [lowConf]
  · refine Or.inl ?_
    show lowConf (some (⟨JointName.right_hip, 20, 20, 0.2⟩ : Keypoint))
    norm_num [lowConf]

/-- C10: whenever the left joint triple passes the confidence gate, the
detection handler classifies on the left-side angle — the right side is
ignored entirely; the right-side angle is consulted exactly when the left
triple fails the gate and the right passes it. -/
theorem left_side_preference (st : AppState) (kps : List Keypoint) :
    (∀ lh lk la : Keypoint,
      findKp kps JointName.left_hip = some lh →
      findKp kps JointName.left_knee = some lk →
      findKp kps JointName.left_ankle = some la →
      lh.score > 0.3 → lk.score > 0.3 → la.score > 0.3 →
      handleSquatDetection st kps =
        squatStep st (angleBetweenThreePoints lh.point lk.point la.point)) ∧
    (lowTriple kps JointName.left_hip JointName.left_knee JointName.left_ankle →
      ∀ rh rk ra : Keypoint,
      findKp kps JointName.right_hip = some rh →
      findKp kps JointName.right_knee = some rk →
      findKp kps JointName.right_ankle = some ra →
      rh.score > 0.3 → rk.score > 0.3 → ra.score > 0.3 →
      handleSquatDetection st kps =
        squatStep st (angleBetweenThreePoints rh.point rk.point ra.point)) ∧
    (∀ ls le lw : Keypoint,
      findKp kps JointName.left_shoulder = some ls →
      findKp kps JointName.left_elbow = some le →
      findKp kps JointName.left_wrist = some lw →
      ls.score > 0.3 → le.score > 0.3 → lw.score > 0.3 →
      handlePushupDetection st kps =
        pushupStep st (angleBetweenThreePoints ls.point le.point lw.point)) ∧
    (lowTriple kps JointName.left_shoulder JointName.left_elbow JointName.left_wrist →
      ∀ rs re rw_ : Keypoint,
      findKp kps JointName.right_shoulder = some rs →
      findKp kps JointName.right_elbow = some re →
      findKp kps JointName.right_wrist = some rw_ →
      rs.score > 0.3 → re.score > 0.3 → rw_.score > 0.3 →
      handlePushupDetection st kps =
        pushupStep st (angleBetweenThreePoints rs.point re.point rw_.point)) := by
  refine ⟨?_, ?_, ?_, ?_⟩
  · intro lh lk la f1 f2 f3 s1 s2 s3
    simp only [handleSquatDetection, f1, f2, f3, tripleAngle?_of_pass lh lk la s1 s2 s3,
      Option.orElse]
  · intro hL rh rk ra f1 f2 f3 s1 s2 s3
    simp only [lowTriple] at hL
    simp only [handleSquatDetection, tripleAngle?_eq_none_of_low hL, f1, f2, f3,
      tripleAngle?_of_pass rh rk ra s1 s2 s3, Option.orElse]
  · intro ls le lw f1 f2 f3 s1 s2 s3
    simp only [handlePushupDetection, f1, f2, f3, tripleAngle?_of_pass ls le lw s1 s2 s3,
      Option.orElse]
  · intro hL rs re rw_ f1 f2 f3 s1 s2 s3
    simp only [lowTriple] at hL
    simp only [handlePushupDetection, tripleAngle?_eq_none_of_low hL, f1, f2, f3,
      tripleAngle?_of_pass rs re rw_ s1 s2 s3, Option.orElse]

/-- Witness for C10 at a concrete frame: both sides fully visible with high
confidence; the handler uses the left-side angle. -/
theorem left_side_preference_witness :
    handleSquatDetection initState
      [⟨JointName.left_hip, 0, 0, 0.9⟩, ⟨JointName.left_knee, 0, 30, 0.9⟩,
       ⟨JointName.left_ankle, 30, 30, 0.9⟩, ⟨JointName.right_hip, 5, 0, 0.9⟩,
       ⟨JointName.right_knee, 5, 30, 0.9⟩, ⟨JointName.right_ankle, 35, 30, 0.9⟩] =
      squatStep initState
        (angleBetweenThreePoints ⟨0, 0⟩ ⟨0, 30⟩ ⟨30, 30⟩) := by
  exact (left_side_preference initState _).1
    ⟨JointName.left_hip, 0, 0, 0.9⟩ ⟨JointName.left_knee, 0, 30, 0.9⟩
    ⟨JointName.left_ankle, 30, 30, 0.9⟩ rfl rfl rfl
    (by norm_num) (by norm_num) (by norm_num)


/-- C1: along any stream of sampled joint angles, the classifier credits
exactly one rep per complete UP→DOWN→UP hysteresis cycle (angle below the
90° down threshold, then above the strictly higher 160° up threshold), for
both the squat and the push-up classifier, provided the session is not
resting and the stream does not fill the current set; and any oscillation
that never crosses both thresholds — never above 160°, or from the UP phase
never below 90° — credits zero reps. -/
theorem rep_credited_once_per_cycle (st : AppState) (angles : List ℚ) :
    (st.isResting = false →
      st.currentSetReps + upCrossings st.isDown angles < REPS_PER_SET →
      (runSquat st angles).repCount = st.repCount + upCrossings st.isDown angles) ∧
    ((∀ x ∈ angles, x ≤ 160) → (runSquat st angles).repCount = st.repCount) ∧
    (st.isDown = false → (∀ x ∈ angles, 90 ≤ x) →
      (runSquat st angles).repCount = st.repCount) ∧
    (st.isResting = false →
      st.currentSetReps + upCrossings st.isPushupDown angles < REPS_PER_SET →
      (runPushup st angles).repCount = st.repCount + upCrossings st.isPushupDown angles) ∧
    ((∀ x ∈ angles, x ≤ 160) → (runPushup st angles).repCount = st.repCount) ∧
    (st.isPushupDown = false → (∀ x ∈ angles, 90 ≤ x) →
      (runPushup st angles).repCount = st.repCount) :=
  ⟨fun h1 h2 => (runSquat_crossings angles st h1 h2).1,
   fun h => runSquat_no_up angles st h,
   fun h1 h2 => (runSquat_stay_up angles st h1 h2).1,
   fun h1 h2 => (runPushup_crossings angles st h1 h2).1,
   fun h => runPushup_no_up angles st h,
   fun h1 h2 => (runPushup_stay_up angles st h1 h2).1⟩

/-- Witness for C1: a stream with two complete cycles credits two squat
reps; oscillation around the 160° threshold alone credits none. -/
theorem rep_credited_once_per_cycle_witness :
    (runSquat (startWorkout initState) [85, 165, 100, 88, 170]).repCount = 2 ∧
    (runSquat (startWorkout initState) [95, 161, 95, 159]).repCount = 0 := by
  constructor
  · have h := (rep_credited_once_per_cycle (startWorkout initState)
      [85, 165, 100, 88, 170]).1 (by decide) (by decide)
    rw [h]; decide
  · have h := (rep_credited_once_per_cycle (startWorkout initState)
      [95, 161, 95, 159]).2.2.1 (by decide) (by decide)
    rw [h]; decide

/-- C2: a credited rep that brings the current set's rep counter to 10
increments the completed-set counter, resets the set-rep counter to 0 and
enters the 30-second resting state, for both exercises; in particular ten
consecutive valid down→up squat cycles from a fresh workout start yield
`totalReps = 10`, `completedSets = 1`, `repsInCurrentSet = 0`, a RESTING
session with 30 seconds remaining, and calories 3.20. -/
theorem set_completion_starts_rest (st : AppState) (a : ℚ) :
    (a > 160 → st.isDown = true → st.isResting = false →
      st.currentSetReps + 1 = REPS_PER_SET →
      (squatStep st a).repCount = st.repCount + 1 ∧
      (squatStep st a).setCount = st.setCount + 1 ∧
      (squatStep st a).currentSetReps = 0 ∧
      (squatStep st a).isResting = true ∧
      (squatStep st a).restTimer = REST_TIME) ∧
    (a > 160 → st.isPushupDown = true → st.isResting = false →
      st.currentSetReps + 1 = REPS_PER_SET →
      (pushupStep st a).repCount = st.repCount + 1 ∧
      (pushupStep st a).setCount = st.setCount + 1 ∧
      (pushupStep st a).currentSetReps = 0 ∧
      (pushupStep st a).isResting = true ∧
      (pushupStep st a).restTimer = REST_TIME) ∧
    ((runSquat (startWorkout initState) tenSquatCycles).repCount = 10 ∧
     (runSquat (startWorkout initState) tenSquatCycles).setCount = 1 ∧
     (runSquat (startWorkout initState) tenSquatCycles).currentSetReps = 0 ∧
     (runSquat (startWorkout initState) tenSquatCycles).isResting = true ∧
     (runSquat (startWorkout initState) tenSquatCycles).restTimer = 30 ∧
     (runSquat (startWorkout initState) tenSquatCycles).calories = 3.2) := by
  refine ⟨?_, ?_, ?_⟩
  · intro h1 h2 h3 h4
    have hq : st.currentSetReps + 1 ≥ REPS_PER_SET := by omega
    refine ⟨?_, ?_, ?_, ?_, ?_⟩
    · rw [squatStep_repCount, if_pos ⟨h1, h2, h3⟩]
    · rw [squatStep_setCount, if_pos ⟨h1, h2, h3, hq⟩]
    · rw [squatStep_currentSetReps, if_pos ⟨h1, h2, h3⟩, if_pos hq]
    · rw [squatStep_isResting, if_pos ⟨h1, h2, h3, hq⟩]
    · rw [squatStep_restTimer, if_pos ⟨h1, h2, h3, hq⟩]
  · intro h1 h2 h3 h4
    have hq : st.currentSetReps + 1 ≥ REPS_PER_SET := by omega
    refine ⟨?_, ?_, ?_, ?_, ?_⟩
    · rw [pushupStep_repCount, if_pos ⟨h1, h2, h3⟩]
    · rw [pushupStep_setCount, if_pos ⟨h1, h2, h3, hq⟩]
    · rw [pushupStep_currentSetReps, if_pos ⟨h1, h2, h3⟩, if_pos hq]
    · rw [pushupStep_isResting, if_pos ⟨h1, h2, h3, hq⟩]
    · rw [pushupStep_restTimer, if_pos ⟨h1, h2, h3, hq⟩]
  · have hinit : (startWorkout initState).calories =
        calculateCalories Exercise.squat (startWorkout initState).repCount := by
      norm_num [startWorkout, initState, calculateCalories, roundTo2]
    have hcal := runSquat_calInv tenSquatCycles (startWorkout initState) hinit
    have hrep : (runSquat (startWorkout initState) tenSquatCycles).repCount = 10 := by
      decide
    refine ⟨hrep, by decide, by decide, by decide, by decide, ?_⟩
    rw [hcal, hrep]
    norm_num [calculateCalories, roundTo2, round_eq]

/-- Witness for C2: with nine reps already in the set, a single DOWN→UP
crossing completes the set and starts the rest period. -/
theorem set_completion_starts_rest_witness :
    (squatStep { initState with isDown := true, repCount := 9, currentSetReps := 9 }
        (170 : ℚ)).setCount = 1 ∧
    (squatStep { initState with isDown := true, repCount := 9, currentSetReps := 9 }
        (170 : ℚ)).isResting = true ∧
    (squatStep { initState with isDown := true, repCount := 9, currentSetReps := 9 }
        (170 : ℚ)).restTimer = 30 := by
  have h := (set_completion_starts_rest
    { initState with isDown := true, repCount := 9, currentSetReps := 9 } (170 : ℚ)).1
    (by norm_num) rfl rfl (by decide)
  exact ⟨by rw [h.2.1]; decide, h.2.2.2.1, h.2.2.2.2⟩

/-- C3: while the session is resting, a DOWN→UP crossing leaves the rep
counter, set counters and calories unchanged but still flips the exercise
phase back to UP, for both classifiers. -/
theorem resting_suppresses_crediting (st : AppState) (a : ℚ)
    (hrest : st.isResting = true) (hup : a > 160) :
    (st.isDown = true →
      (squatStep st a).repCount = st.repCount ∧
      (squatStep st a).currentSetReps = st.currentSetReps ∧
      (squatStep st a).setCount = st.setCount ∧
      (squatStep st a).calories = st.calories ∧
      (squatStep st a).isDown = false) ∧
    (st.isPushupDown = true →
      (pushupStep st a).repCount = st.repCount ∧
      (pushupStep st a).currentSetReps = st.currentSetReps ∧
      (pushupStep st a).setCount = st.setCount ∧
      (pushupStep st a).calories = st.calories ∧
      (pushupStep st a).isPushupDown = false) := by
  constructor
  · intro hd
    refine ⟨?_, ?_, ?_, ?_, ?_⟩ <;>
      simp [squatStep_repCount, squatStep_currentSetReps, squatStep_setCount,
        squatStep_calories, squatStep_isDown, hrest, hd, hup]
  · intro hd
    refine ⟨?_, ?_, ?_, ?_, ?_⟩ <;>
      simp [pushupStep_repCount, pushupStep_currentSetReps, pushupStep_setCount,
        pushupStep_calories, pushupStep_isPushupDown, hrest, hd, hup]

/-- Witness for C3: a DOWN→UP crossing at 170° during rest keeps the rep
counter at 0 yet clears the DOWN phase flag. -/
theorem resting_suppresses_crediting_witness :
    (squatStep { initState with isResting := true, isDown := true } (170 : ℚ)).repCount = 0 ∧
    (squatStep { initState with isResting := true, isDown := true } (170 : ℚ)).isDown =
      false := by
  have h := (resting_suppresses_crediting
    { initState with isResting := true, isDown := true } (170 : ℚ) rfl (by norm_num)).1 rfl
  exact ⟨by rw [h.1]; decide, h.2.2.2.2⟩

/-- C4: calories are a pure function of the total rep count — along any
classifier run they remain `calculateCalories` of the total rep counter —
and `calculateCalories` is exactly `round(N × kcalPerRep, 2)` with
0.32 kcal/rep for squats and 0.29 kcal/rep for push-ups. -/
theorem calories_recomputed_from_reps (st : AppState) (angles : List ℚ) :
    (st.calories = calculateCalories Exercise.squat st.repCount →
      (runSquat st angles).calories =
        calculateCalories Exercise.squat (runSquat st angles).repCount) ∧
    (st.calories = calculateCalories Exercise.pushup st.repCount →
      (runPushup st angles).calories =
        calculateCalories Exercise.pushup (runPushup st angles).repCount) ∧
    (∀ n : ℕ, calculateCalories Exercise.squat n =
      ((round (((n : ℚ) * 0.32) * 100) : ℤ) : ℚ) / 100) ∧
    (∀ n : ℕ, calculateCalories Exercise.pushup n =
      ((round (((n : ℚ) * 0.29) * 100) : ℤ) : ℚ) / 100) := by
  refine ⟨fun h => runSquat_calInv angles st h, fun h => runPushup_calInv angles st h,
    fun n => ?_, fun n => ?_⟩
  · simp [calculateCalories, roundTo2]
  · simp [calculateCalories, roundTo2]

/-- Witness for C4: a single credited squat rep from a fresh start leaves
calories equal to the calorie function of the rep count. -/
theorem calories_recomputed_from_reps_witness :
    (runSquat (startWorkout initState) [80, 170]).calories =
      calculateCalories Exercise.squat
        (runSquat (startWorkout initState) [80, 170]).repCount :=
  (calories_recomputed_from_reps (startWorkout initState) [80, 170]).1
    (by norm_num [startWorkout, initState, calculateCalories, roundTo2])

/-- C6: pressing start while a countdown is live cancels the countdown and
returns the session to IDLE: the workout does not start (`running` stays
false), the rep/set/calorie counters are untouched, and the countdown
display is cleared. -/
theorem start_during_countdown_cancels (st : AppState) (ok : Bool)
    (hrun : st.running = false) (hcd : st.countdownActive = true)
    (hcam : st.cameraReady = true) :
    (handleStart st ok).running = false ∧
    (handleStart st ok).countdownActive = false ∧
    (handleStart st ok).countdown = none ∧
    (handleStart st ok).repCount = st.repCount ∧
    (handleStart st ok).setCount = st.setCount ∧
    (handleStart st ok).currentSetReps = st.currentSetReps ∧
    (handleStart st ok).calories = st.calories := by
  simp [handleStart, clearCountdown, hrun, hcd, hcam]

/-- Witness for C6: cancelling a live countdown from a concrete state. -/
theorem start_during_countdown_cancels_witness :
    (handleStart { initState with cameraReady := true, countdownActive := true, countdown := some 2 } true).running = false ∧
    (handleStart { initState with cameraReady := true, countdownActive := true, countdown := some 2 } true).countdownActive = false ∧
    (handleStart { initState with cameraReady := true, countdownActive := true, countdown := some 2 } true).countdown = none := by
  have h := start_during_countdown_cancels
    { initState with cameraReady := true, countdownActive := true, countdown := some 2 }
    true rfl rfl rfl
  exact ⟨h.1, h.2.1, h.2.2.1⟩

/-- One within-run event never decreases the rep or set counters, never
changes the exercise, and keeps calories the calorie function of the rep
count. -/
theorem runEventStep_facts (st : AppState) (e : RunEvent) :
    st.repCount ≤ (runEventStep st e).repCount ∧
    st.setCount ≤ (runEventStep st e).setCount ∧
    (runEventStep st e).exercise = st.exercise ∧
    (st.calories = calculateCalories st.exercise st.repCount →
      (runEventStep st e).calories =
        calculateCalories st.exercise (runEventStep st e).repCount) := by
  cases e with
  | sample a =>
    cases hex : st.exercise with
    | squat =>
      simp only [runEventStep, detectStep, hex]
      refine ⟨?_, ?_, (squatStep_preserved st a).1.trans hex, ?_⟩
      · rw [squatStep_repCount]; split_ifs <;> omega
      · rw [squatStep_setCount]; split_ifs <;> omega
      · intro h
        rw [squatStep_calories, squatStep_repCount]
        split_ifs
        · rfl
        · exact h
    | pushup =>
      simp only [runEventStep, detectStep, hex]
      refine ⟨?_, ?_, (pushupStep_preserved st a).1.trans hex, ?_⟩
      · rw [pushupStep_repCount]; split_ifs <;> omega
      · rw [pushupStep_setCount]; split_ifs <;> omega
      · intro h
        rw [pushupStep_calories, pushupStep_repCount]
        split_ifs
        · rfl
        · exact h
  | restTick =>
    obtain ⟨a1, a2, a3, a4, a5⟩ := restTickStep_preserved st
    simp only [runEventStep]
    exact ⟨le_of_eq a1.symm, le_of_eq a2.symm, a5, fun h => by rw [a4, a1]; exact h⟩
  | stop =>
    obtain ⟨a1, a2, a3, a4, a5⟩ := handleStart_preserved st true
    simp only [runEventStep]
    exact ⟨le_of_eq a1.symm, le_of_eq a2.symm, a5, fun h => by rw [a4, a1]; exact h⟩

/-- C7: within a run, across any sequence of classifier samples, rest ticks
and stop events, the total rep counter and the completed-set counter never
decrease, the exercise never changes, and calories remain the pure calorie
function of the total rep count. -/
theorem counters_monotonic_within_run (st : AppState) (es : List RunEvent) :
    st.repCount ≤ (runEvents st es).repCount ∧
    st.setCount ≤ (runEvents st es).setCount ∧
    (runEvents st es).exercise = st.exercise ∧
    (st.calories = calculateCalories st.exercise st.repCount →
      (runEvents st es).calories =
        calculateCalories st.exercise (runEvents st es).repCount) := by
  induction es generalizing st with
  | nil => exact ⟨le_refl _, le_refl _, rfl, fun h => h⟩
  | cons e rest ih =>
    obtain ⟨s1, s2, s3, s4⟩ := runEventStep_facts st e
    obtain ⟨h1, h2, h3, h4⟩ := ih (runEventStep st e)
    have hfold : runEvents st (e :: rest) = runEvents (runEventStep st e) rest := rfl
    rw [hfold]
    refine ⟨s1.trans h1, s2.trans h2, h3.trans s3, ?_⟩
    intro h
    have hcal := h4 (by rw [s3]; exact s4 h)
    rw [hcal, s3]

/-- Witness for C7: a rep, a rest tick and a stop leave the counters
monotone and calories consistent. -/
theorem counters_monotonic_within_run_witness :
    (startWorkout initState).repCount ≤
      (runEvents (startWorkout initState)
        [RunEvent.sample 80, RunEvent.sample 170, RunEvent.restTick,
         RunEvent.stop]).repCount ∧
    (runEvents (startWorkout initState)
        [RunEvent.sample 80, RunEvent.sample 170, RunEvent.restTick,
         RunEvent.stop]).calories =
      calculateCalories (startWorkout initState).exercise
        (runEvents (startWorkout initState)
          [RunEvent.sample 80, RunEvent.sample 170, RunEvent.restTick,
           RunEvent.stop]).repCount := by
  have h := counters_monotonic_within_run (startWorkout initState)
    [RunEvent.sample 80, RunEvent.sample 170, RunEvent.restTick, RunEvent.stop]
  exact ⟨h.1, h.2.2.2 (by norm_num [startWorkout, initState, calculateCalories, roundTo2])⟩

/-- C9: the counter-decomposition invariant — the current set holds at most
9 reps and the total rep count equals 10 × completed sets + current-set
reps — holds initially and is preserved by every session operation, so the
displayed current-set counter never shows 10. -/
theorem counter_decomposition_invariant :
    counterInv initState ∧
    ∀ (st : AppState) (op : SessionOp),
      counterInv st → counterInv (applySessionOp st op) := by
  refine ⟨⟨by decide, by decide⟩, ?_⟩
  intro st op hInv
  obtain ⟨hcsr, hdec⟩ := hInv
  cases op with
  | workoutStart => exact ⟨by simp [applySessionOp, startWorkout], by
      simp [applySessionOp, startWorkout]⟩
  | reset => exact ⟨by simp [applySessionOp, handleReset], by
      simp [applySessionOp, handleReset]⟩
  | exerciseChange e => exact ⟨by simp [applySessionOp, handleExerciseChange], by
      simp [applySessionOp, handleExerciseChange]⟩
  | restTick =>
    obtain ⟨a1, a2, a3, -, -⟩ := restTickStep_preserved st
    simp only [applySessionOp]
    exact ⟨by rw [a3]; exact hcsr, by rw [a1, a2, a3]; exact hdec⟩
  | buttonPress ok =>
    obtain ⟨a1, a2, a3, -, -⟩ := handleStart_preserved st ok
    simp only [applySessionOp]
    exact ⟨by rw [a3]; exact hcsr, by rw [a1, a2, a3]; exact hdec⟩
  | sample a =>
    cases hex : st.exercise with
    | squat =>
      simp only [applySessionOp, detectStep, hex]
      by_cases hP : a > (160 : ℚ) ∧ st.isDown = true ∧ st.isResting = false
      · by_cases hQ : st.currentSetReps + 1 ≥ REPS_PER_SET
        · constructor
          · rw [squatStep_currentSetReps, if_pos hP, if_pos hQ]
            exact Nat.zero_le _
          · rw [squatStep_repCount, squatStep_setCount, squatStep_currentSetReps,
              if_pos hP, if_pos ⟨hP.1, hP.2.1, hP.2.2, hQ⟩, if_pos hP, if_pos hQ]
            simp only [REPS_PER_SET] at hcsr hdec hQ ⊢
            omega
        · constructor
          · rw [squatStep_currentSetReps, if_pos hP, if_neg hQ]
            simp only [REPS_PER_SET] at hQ ⊢
            omega
          · rw [squatStep_repCount, squatStep_setCount, squatStep_currentSetReps,
              if_pos hP, if_neg (fun hh => hQ hh.2.2.2), if_pos hP, if_neg hQ]
            simp only [REPS_PER_SET] at hdec ⊢
            omega
      · constructor
        · rw [squatStep_currentSetReps, if_neg hP]
          exact hcsr
        · rw [squatStep_repCount, squatStep_setCount, squatStep_currentSetReps,
            if_neg hP, if_neg (fun hh => hP ⟨hh.1, hh.2.1, hh.2.2.1⟩), if_neg hP]
          exact hdec
    | pushup =>
      simp only [applySessionOp, detectStep, hex]
      by_cases hP : a > (160 : ℚ) ∧ st.isPushupDown = true ∧ st.isResting = false
      · by_cases hQ : st.currentSetReps + 1 ≥ REPS_PER_SET
        · constructor
          · rw [pushupStep_currentSetReps, if_pos hP, if_pos hQ]
            exact Nat.zero_le _
          · rw [pushupStep_repCount, pushupStep_setCount, pushupStep_currentSetReps,
              if_pos hP, if_pos ⟨hP.1, hP.2.1, hP.2.2, hQ⟩, if_pos hP, if_pos hQ]
            simp only [REPS_PER_SET] at hcsr hdec hQ ⊢
            omega
        · constructor
          · rw [pushupStep_currentSetReps, if_pos hP, if_neg hQ]
            simp only [REPS_PER_SET] at hQ ⊢
            omega
          · rw [pushupStep_repCount, pushupStep_setCount, pushupStep_currentSetReps,
              if_pos hP, if_neg (fun hh => hQ hh.2.2.2), if_pos hP, if_neg hQ]
            simp only [REPS_PER_SET] at hdec ⊢
            omega
      · constructor
        · rw [pushupStep_currentSetReps, if_neg hP]
          exact hcsr
        · rw [pushupStep_repCount, pushupStep_setCount, pushupStep_currentSetReps,
            if_neg hP, if_neg (fun hh => hP ⟨hh.1, hh.2.1, hh.2.2.1⟩), if_neg hP]
          exact hdec

/-- Witness for C9: the invariant is preserved across a concrete credited
rep. -/
theorem counter_decomposition_invariant_witness :
    counterInv (applySessionOp { initState with isDown := true, repCount := 3, currentSetReps := 3 } (SessionOp.sample 170)) :=
  counter_decomposition_invariant.2
    { initState with isDown := true, repCount := 3, currentSetReps := 3 }
    (SessionOp.sample 170) ⟨by decide, by decide⟩

/-- Witness for C8: the degenerate input with a zero-length first side
vector yields angle 0. -/
theorem angleBetween_range_and_degenerate_witness :
    angleBetweenThreePoints ⟨0, 0⟩ ⟨0, 0⟩ ⟨1, 0⟩ = 0 :=
  (angleBetween_range_and_degenerate ⟨0, 0⟩ ⟨0, 0⟩ ⟨1, 0⟩).2.1 (Or.inl ⟨rfl, rfl⟩)


end AITrainer
